import Mathlib

/-!
Verification of the ZIP-region classification, temporal feature derivation,
risk-factor annotation and predict-button control flow of the accident
predictor application (src/app.py), as a shallow embedding in Lean 4.
-/

/-- Characters stripped by Python's `int(str)` conversion (ASCII whitespace). -/
def pyWhitespace (c : Char) : Bool :=
  c = ' ' || c = '\t' || c = '\n' || c = '\r' || c = '\x0b' || c = '\x0c'

/-- Value of a run of ASCII digits possibly separated by single underscores,
continuing an already-accumulated value `acc`.  Mirrors the tail of Python's
integer-literal grammar: an underscore must be followed by a digit, and may
not be doubled or trailing.  Returns `none` on any other character. -/
def pyDigitsAux (acc : Nat) : List Char → Option Nat
  | [] => some acc
  | c :: rest =>
    if c.isDigit then pyDigitsAux (acc * 10 + (c.toNat - 48)) rest
    else if c = '_' then
      match rest with
      | [] => none
      | d :: rest2 =>
        if d.isDigit then pyDigitsAux (acc * 10 + (d.toNat - 48)) rest2
        else none
    else none

/-- Value of a nonempty digit string (underscore-separated groups allowed,
first character must be a digit), per Python's `int(str)` digit grammar. -/
def pyDigits : List Char → Option Nat
  | [] => none
  | c :: rest => if c.isDigit then pyDigitsAux (c.toNat - 48) rest else none

/-- Shallow embedding of Python's `int(s)` on strings: optional surrounding
whitespace, an optional sign, then a nonempty digit sequence.  Returns `none`
exactly when Python raises `ValueError`. -/
def pyInt (s : String) : Option Int :=
  let core := ((s.data.dropWhile pyWhitespace).reverse.dropWhile pyWhitespace).reverse
  match core with
  | '+' :: rest => (pyDigits rest).map (fun n => (n : Int))
  | '-' :: rest => (pyDigits rest).map (fun n => -(n : Int))
  | rest => (pyDigits rest).map (fun n => (n : Int))

/-- The five New York State ZIP ranges of `is_valid_ny_zipcode` (src/app.py
lines 41-47), in source order. -/
def ny_ranges : List (Int × Int) :=
  [(10001, 14925), (12007, 12887), (13001, 13901), (14001, 14788), (14801, 14925)]

/-- Embedding of `is_valid_ny_zipcode` (src/app.py lines 39-53): parse the
string with `int`, return whether the value falls in any of the five ranges;
a parse failure is caught and yields `false`. -/
def is_valid_ny_zipcode (zipcode : String) : Bool :=
  match pyInt zipcode with
  | some zip_int => ny_ranges.any (fun p => decide (p.1 ≤ zip_int) && decide (zip_int ≤ p.2))
  | none => false

/-- The nested range dispatch of `get_region` (src/app.py lines 58-79) on an
already-parsed integer. -/
def region_of_int (zip_int : Int) : String :=
  if 10001 ≤ zip_int ∧ zip_int ≤ 14925 then
    if 10001 ≤ zip_int ∧ zip_int ≤ 10282 then "Manhattan, NYC"
    else if 10301 ≤ zip_int ∧ zip_int ≤ 10314 then "Staten Island, NYC"
    else if 10451 ≤ zip_int ∧ zip_int ≤ 10475 then "Bronx, NYC"
    else if 11001 ≤ zip_int ∧ zip_int ≤ 11697 then "Queens, NYC"
    else if 11201 ≤ zip_int ∧ zip_int ≤ 11256 then "Brooklyn, NYC"
    else "New York City Area"
  else if 12007 ≤ zip_int ∧ zip_int ≤ 12887 then "Capital Region"
  else if 13001 ≤ zip_int ∧ zip_int ≤ 13901 then "Central New York"
  else if 14001 ≤ zip_int ∧ zip_int ≤ 14788 then "Western New York"
  else if 14801 ≤ zip_int ∧ zip_int ≤ 14925 then "Southern Tier"
  else "Unknown"

/-- Embedding of `get_region` (src/app.py lines 55-81): parse with `int` and
dispatch on the nested ranges; a parse failure is caught and yields
the string Invalid. -/
def get_region (zipcode : String) : String :=
  match pyInt zipcode with
  | some zip_int => region_of_int zip_int
  | none => "Invalid"

/-- A calendar date as the program observes it through Python's `datetime`:
only the month and day components and `date.weekday()` are read
(src/app.py lines 108-110).  Per the Python documentation, `weekday()`
returns Monday=0 .. Sunday=6. -/
structure PyDate where
  month : Nat
  day : Nat
  weekday : Nat

/-- The temporal feature record assembled in src/app.py lines 108-113. -/
structure TemporalContext where
  month : Nat
  day : Nat
  dayOfWeek : Nat
  hour : Nat
  isRushHour : Nat
  isWeekend : Nat
  isNightTime : Nat

/-- Embedding of the temporal feature computation (src/app.py lines
108-113): `month`/`day`/`day_of_week` copied from the date, and the three
indicator flags computed from the hour and weekday exactly as the source
conditions read, as 0/1 integers. -/
def deriveFeatures (date_time : PyDate) (hour : Nat) : TemporalContext :=
  { month := date_time.month
    day := date_time.day
    dayOfWeek := date_time.weekday
    hour := hour
    isRushHour := if (7 ≤ hour ∧ hour ≤ 9) ∨ (16 ≤ hour ∧ hour ≤ 19) then 1 else 0
    isWeekend := if 5 ≤ date_time.weekday then 1 else 0
    isNightTime := if 22 ≤ hour ∨ hour ≤ 5 then 1 else 0 }

/-- The rush-hour note appended in src/app.py line 196. -/
def rushHourNote : String := "- Accident occurs during rush hour"

/-- The night-time note appended in src/app.py line 198. -/
def nightTimeNote : String := "- Accident occurs during night time"

/-- The high-risk contributing-factor note of src/app.py line 200, with the
factor interpolated as in the source f-string. -/
def highRiskNote (contributing_factor : String) : String :=
  "- High-risk contributing factor: " ++ contributing_factor

/-- The fixed set of high-risk contributing factors (src/app.py line 199). -/
def highRiskFactors : List String :=
  ["driver inattention/distraction", "unsafe speed"]

/-- The message rendered when the risk list is empty (src/app.py line 205). -/
def noRiskMessage : String := "No significant risk factors identified."

/-- Embedding of the risk-factor list construction (src/app.py lines
194-200): three sequential conditional appends.  The flags are the 0/1
integers of the source; Python truthiness of an int is being nonzero. -/
def risk_factors (is_rush_hour is_night_time : Nat) (contributing_factor : String) : List String :=
  (if is_rush_hour ≠ 0 then [rushHourNote] else []) ++
  (if is_night_time ≠ 0 then [nightTimeNote] else []) ++
  (if contributing_factor ∈ highRiskFactors then [highRiskNote contributing_factor] else [])

/-- Embedding of the risk-section rendering (src/app.py lines 202-205):
join the notes with newlines when the list is truthy (nonempty), else the
no-risk message. -/
def riskMessage (factors : List String) : String :=
  if factors ≠ [] then String.intercalate "\n" factors else noRiskMessage

/-- The form state read by the predict-button handler: the widget values
live at the moment the button is pressed (src/app.py lines 104-139). -/
structure FormState where
  date_time : PyDate
  hour : Nat
  vehicle_type : String
  contributing_factor : String
  zip_code : String

/-- The flat record handed to the predictor (the DataFrame of src/app.py
lines 157-168), one field per column. -/
structure InputData where
  month : Nat
  day : Nat
  hour : Nat
  dayOfWeek : Nat
  vehicleType : String
  zipCode : Int
  contributingFactor : String
  isRushHour : Nat
  isWeekend : Nat
  isNightTime : Nat

/-- Assembly of the predictor input from the form state and the parsed ZIP
(src/app.py lines 157-168); the temporal features are the ones recomputed
from the current widget values in the same script run (lines 108-113). -/
def build_input_data (fs : FormState) (zip_int : Int) : InputData :=
  let tc := deriveFeatures fs.date_time fs.hour
  { month := tc.month
    day := tc.day
    hour := fs.hour
    dayOfWeek := tc.dayOfWeek
    vehicleType := fs.vehicle_type
    zipCode := zip_int
    contributingFactor := fs.contributing_factor
    isRushHour := tc.isRushHour
    isWeekend := tc.isWeekend
    isNightTime := tc.isNightTime }

/-- Outcome of one predict-button press, as the user sees it:
a validation error (src/app.py line 153), a generic prediction failure
(line 208), or rendered results together with the risk section
(lines 175-205).  `ρ` is the opaque payload returned by the external
predictor. -/
inductive PredictOutcome (ρ : Type) where
  | validationError : PredictOutcome ρ
  | predictionError : PredictOutcome ρ
  | results : ρ → String → PredictOutcome ρ
deriving DecidableEq

/-- Result of one run of the predict-button handler: the reported outcome,
how many times the external predictor was invoked, and the form state left
behind for the next attempt. -/
structure HandlerResult (ρ : Type) where
  outcome : PredictOutcome ρ
  predictorCalls : Nat
  finalState : FormState

/-- Embedding of the predict-button handler (src/app.py lines 149-208):
re-validate the ZIP with `is_valid_ny_zipcode` and stop with an error
before any predictor call if it fails; otherwise parse the ZIP, build the
input record, make a single predictor invocation, and either render results
plus the risk section or catch the raised error and report the generic
failure.  The form state is never mutated.  The predictor is passed in as
an opaque function that may fail (`Except.error` models a raised
exception). -/
def predict_button_handler {ρ : Type} (fs : FormState)
    (predictor : InputData → Except String ρ) : HandlerResult ρ :=
  if is_valid_ny_zipcode fs.zip_code = false then
    { outcome := .validationError, predictorCalls := 0, finalState := fs }
  else
    match pyInt fs.zip_code with
    | none =>
      { outcome := .predictionError, predictorCalls := 0, finalState := fs }
    | some zip_int =>
      let tc := deriveFeatures fs.date_time fs.hour
      match predictor (build_input_data fs zip_int) with
      | .error _ =>
        { outcome := .predictionError, predictorCalls := 1, finalState := fs }
      | .ok r =>
        { outcome := .results r
            (riskMessage (risk_factors tc.isRushHour tc.isNightTime fs.contributing_factor))
          predictorCalls := 1
          finalState := fs }

/-- Membership of an integer in the union of the five NY ranges, written as
the spec writes it. -/
def in_ny_union (n : Int) : Prop :=
  (10001 ≤ n ∧ n ≤ 14925) ∨ (12007 ≤ n ∧ n ≤ 12887) ∨ (13001 ≤ n ∧ n ≤ 13901) ∨
  (14001 ≤ n ∧ n ≤ 14788) ∨ (14801 ≤ n ∧ n ≤ 14925)

instance (n : Int) : Decidable (in_ny_union n) := by
  unfold in_ny_union
  infer_instance

/-- The validity predicate exactly as claim C2 states it: the string has
exactly 5 characters, all digits, and its value lies in the union of the
five ranges.  This definition follows the claim wording, to be compared
against the source's `is_valid_ny_zipcode`. -/
def claimed_valid_strict (s : String) : Bool :=
  s.length == 5 && s.data.all Char.isDigit &&
  (match pyInt s with
   | some n => decide (in_ny_union n)
   | none => false)

/-- C4's guarantee exactly as the claim states it, instantiated at one
input string: if the string is unparseable or not exactly 5 digits then
validation returns false and classification returns "Invalid". -/
def claimC4_at (s : String) : Prop :=
  (pyInt s = none ∨ ¬(s.length = 5 ∧ s.data.all Char.isDigit = true)) →
  (is_valid_ny_zipcode s = false ∧ get_region s = "Invalid")

lemma any_ranges_iff_union (n : Int) :
    (ny_ranges.any fun p => decide (p.1 ≤ n) && decide (n ≤ p.2)) = true ↔ in_ny_union n := by
  simp [ny_ranges, in_ny_union]

lemma any_ranges_iff_outer (n : Int) :
    (ny_ranges.any fun p => decide (p.1 ≤ n) && decide (n ≤ p.2)) = true ↔
      (10001 ≤ n ∧ n ≤ 14925) := by
  rw [any_ranges_iff_union]
  unfold in_ny_union
  omega

lemma region_of_int_mem (n : Int) :
    region_of_int n ∈ (["Manhattan, NYC", "Staten Island, NYC", "Bronx, NYC",
      "Queens, NYC", "Brooklyn, NYC", "New York City Area", "Unknown"] : List String) := by
  unfold region_of_int
  split_ifs <;> first | decide | (exfalso; omega)

lemma region_of_int_ne_broad (n : Int) :
    region_of_int n ≠ "Capital Region" ∧ region_of_int n ≠ "Central New York" ∧
    region_of_int n ≠ "Western New York" ∧ region_of_int n ≠ "Southern Tier" := by
  have h := region_of_int_mem n
  simp only [List.mem_cons, List.not_mem_nil, or_false] at h
  rcases h with h | h | h | h | h | h | h <;> rw [h] <;> decide

lemma region_of_int_unknown_iff (n : Int) :
    region_of_int n = "Unknown" ↔ ¬(10001 ≤ n ∧ n ≤ 14925) := by
  unfold region_of_int
  split_ifs <;> simp_all <;> omega

lemma region_of_int_ne_invalid (n : Int) : region_of_int n ≠ "Invalid" := by
  have h := region_of_int_mem n
  simp only [List.mem_cons, List.not_mem_nil, or_false] at h
  rcases h with h | h | h | h | h | h | h <;> rw [h] <;> decide

/-- C1 (counterexample): the claim asserts `classify("13500")` returns
"Central New York", but the source's `get_region` puts 13500 in the outer
NYC range [10001,14925], which is checked first, and returns
"New York City Area". -/
theorem get_region_13500_not_central :
    get_region ("13500") = "New York City Area" ∧
    get_region ("13500") ≠ "Central New York" := by
  decide

/-- C1 (amended): the classifier maps the test vectors as the code does:
"10001" to "Manhattan, NYC"; "11201" — which lies in both the Queens range
[11001,11697] and the Brooklyn range [11201,11256] — to "Queens, NYC"
because the Queens check comes first; "13500" to "New York City Area"
(the outer NYC range is checked before the Central New York range and
captures it); "99999" to "Unknown". -/
theorem region_classifier_vectors :
    get_region ("10001") = "Manhattan, NYC" ∧
    ((11001 : Int) ≤ 11201 ∧ (11201 : Int) ≤ 11697) ∧
    ((11201 : Int) ≤ 11201 ∧ (11201 : Int) ≤ 11256) ∧
    get_region ("11201") = "Queens, NYC" ∧
    get_region ("13500") = "New York City Area" ∧
    get_region ("99999") = "Unknown" := by
  decide

/-- C2 (counterexample): the claim asserts `is_valid_ny_zipcode` accepts
exactly the 5-digit numeric strings with value in the five ranges, but the
source only calls `int()` and never checks the length: the 6-character
string "012345" parses to 12345, which is in range, so the function
returns true while the claimed predicate is false. -/
theorem is_valid_not_strict :
    ¬(is_valid_ny_zipcode ("012345") = true ↔ claimed_valid_strict ("012345") = true) := by
  decide

/-- C2 (amended): `is_valid_ny_zipcode` returns true exactly when the
string parses under Python's `int()` (which tolerates surrounding
whitespace, a sign, leading zeros and any length) to a value in
[10001,14925] ∪ [12007,12887] ∪ [13001,13901] ∪ [14001,14788] ∪
[14801,14925]; every string that fails to parse is rejected.  The 5-digit
length restriction of the claim is not enforced by this function. -/
theorem is_valid_iff_parses_in_union (s : String) :
    is_valid_ny_zipcode s = true ↔ ∃ n, pyInt s = some n ∧ in_ny_union n := by
  unfold is_valid_ny_zipcode
  cases h : pyInt s with
  | none => simp
  | some n => simpa using any_ranges_iff_union n

/-- C3: `get_region` never returns any of the four broader region names —
the outer range [10001,14925] is checked first and contains all four
broader ranges, so those branches are dead — and its image is contained in
the eight remaining labels. -/
theorem get_region_image (s : String) :
    (get_region s ≠ "Capital Region" ∧ get_region s ≠ "Central New York" ∧
     get_region s ≠ "Western New York" ∧ get_region s ≠ "Southern Tier") ∧
    get_region s ∈ (["Manhattan, NYC", "Staten Island, NYC", "Bronx, NYC",
      "Queens, NYC", "Brooklyn, NYC", "New York City Area", "Unknown",
      "Invalid"] : List String) := by
  unfold get_region
  cases h : pyInt s with
  | none => exact ⟨by decide, by decide⟩
  | some n =>
    refine ⟨region_of_int_ne_broad n, ?_⟩
    have hm := region_of_int_mem n
    simp only [List.mem_cons, List.not_mem_nil, or_false] at hm ⊢
    tauto

/-- C4 (counterexample): " 10001" is 6 characters and not all digits, yet
Python's `int()` strips the blank, so the source functions accept it:
`is_valid_ny_zipcode` returns true and `get_region` returns
"Manhattan, NYC", falsifying the claim at this input. -/
theorem fail_closed_claim_false :
    ¬claimC4_at (" 10001") := by
  unfold claimC4_at
  decide

/-- C4 (amended): both functions fail closed exactly on the strings that
are not parseable by Python's `int()`: there `is_valid_ny_zipcode` returns
false and `get_region` returns "Invalid".  (Not being exactly 5 digits
does not by itself trigger the closed failure; that check lives in the
form-feedback code, not in these functions.) -/
theorem malformed_fails_closed (s : String) (h : pyInt s = none) :
    is_valid_ny_zipcode s = false ∧ get_region s = "Invalid" := by
  unfold is_valid_ny_zipcode get_region
  rw [h]
  exact ⟨rfl, rfl⟩

/-- C4 witness: the amended theorem applied at the unparseable string
"abcde". -/
theorem malformed_fails_closed_witness :
    pyInt ("abcde") = none ∧
    (is_valid_ny_zipcode ("abcde") = false ∧ get_region ("abcde") = "Invalid") :=
  ⟨by decide, malformed_fails_closed ("abcde") (by decide)⟩

/-- C9: validity and classification agree on every input string: the ZIP
is accepted exactly when the classifier assigns it a label other than
"Unknown" and "Invalid". -/
theorem valid_iff_named_region (s : String) :
    is_valid_ny_zipcode s = true ↔
      (get_region s ≠ "Unknown" ∧ get_region s ≠ "Invalid") := by
  unfold is_valid_ny_zipcode get_region
  cases h : pyInt s with
  | none => simp
  | some n =>
    rw [any_ranges_iff_outer]
    show (10001 ≤ n ∧ n ≤ 14925) ↔ (region_of_int n ≠ "Unknown" ∧ region_of_int n ≠ "Invalid")
    constructor
    · intro hin
      refine ⟨?_, region_of_int_ne_invalid n⟩
      simp only [ne_eq, region_of_int_unknown_iff]
      exact not_not_intro hin
    · rintro ⟨hu, _⟩
      by_contra hout
      exact hu ((region_of_int_unknown_iff n).mpr hout)

lemma highRiskNote_ne_rush (cf : String) : highRiskNote cf ≠ rushHourNote := by
  intro h
  have h2 : (highRiskNote cf).data.getD 2 ' ' = rushHourNote.data.getD 2 ' ' :=
    congrArg (fun s => s.data.getD 2 ' ') h
  have e1 : (highRiskNote cf).data.getD 2 ' ' = 'H' := rfl
  have e2 : rushHourNote.data.getD 2 ' ' = 'A' := rfl
  rw [e1, e2] at h2
  exact absurd h2 (by decide)

lemma highRiskNote_ne_night (cf : String) : highRiskNote cf ≠ nightTimeNote := by
  intro h
  have h2 : (highRiskNote cf).data.getD 2 ' ' = nightTimeNote.data.getD 2 ' ' :=
    congrArg (fun s => s.data.getD 2 ' ') h
  have e1 : (highRiskNote cf).data.getD 2 ' ' = 'H' := rfl
  have e2 : nightTimeNote.data.getD 2 ' ' = 'A' := rfl
  rw [e1, e2] at h2
  exact absurd h2 (by decide)

lemma rush_mem_iff (r n : Nat) (cf : String) :
    rushHourNote ∈ risk_factors r n cf ↔ r ≠ 0 := by
  have hhr := Ne.symm (highRiskNote_ne_rush cf)
  have hnt : rushHourNote ≠ nightTimeNote := by decide
  unfold risk_factors
  split_ifs <;> simp_all

lemma night_mem_iff (r n : Nat) (cf : String) :
    nightTimeNote ∈ risk_factors r n cf ↔ n ≠ 0 := by
  have hhn := Ne.symm (highRiskNote_ne_night cf)
  have hnt : nightTimeNote ≠ rushHourNote := by decide
  unfold risk_factors
  split_ifs <;> simp_all

lemma highrisk_mem_iff (r n : Nat) (cf : String) :
    highRiskNote cf ∈ risk_factors r n cf ↔ cf ∈ highRiskFactors := by
  have h1 := highRiskNote_ne_rush cf
  have h2 := highRiskNote_ne_night cf
  unfold risk_factors
  split_ifs <;> simp_all

lemma risk_factors_elements (r n : Nat) (cf : String) :
    ∀ x ∈ risk_factors r n cf,
      x = rushHourNote ∨ x = nightTimeNote ∨ x = highRiskNote cf := by
  intro x hx
  unfold risk_factors at hx
  split_ifs at hx <;> simp_all <;> tauto

lemma risk_factors_empty_iff (r n : Nat) (cf : String) :
    risk_factors r n cf = [] ↔ (r = 0 ∧ n = 0 ∧ cf ∉ highRiskFactors) := by
  unfold risk_factors
  split_ifs <;> simp_all

lemma rush_flag_cases (d : PyDate) (hour : Nat) :
    (deriveFeatures d hour).isRushHour = 0 ∨ (deriveFeatures d hour).isRushHour = 1 := by
  unfold deriveFeatures
  split_ifs <;> simp

lemma night_flag_cases (d : PyDate) (hour : Nat) :
    (deriveFeatures d hour).isNightTime = 0 ∨ (deriveFeatures d hour).isNightTime = 1 := by
  unfold deriveFeatures
  split_ifs <;> simp

/-- C6: the temporal feature derivation is the stated pure function: month
and day are the calendar components, dayOfWeek is copied from the
Monday=0..Sunday=6 weekday, the rush-hour flag is set exactly on hours
7-9 and 16-19, the weekend flag exactly when the weekday is at least 5,
and the night flag exactly on hours 22-23 and 0-5. -/
theorem temporal_features_spec (d : PyDate) (hour : Nat) (_hh : hour ≤ 23) :
    (deriveFeatures d hour).month = d.month ∧
    (deriveFeatures d hour).day = d.day ∧
    (deriveFeatures d hour).dayOfWeek = d.weekday ∧
    (deriveFeatures d hour).hour = hour ∧
    ((deriveFeatures d hour).isRushHour = 1 ↔
      (7 ≤ hour ∧ hour ≤ 9) ∨ (16 ≤ hour ∧ hour ≤ 19)) ∧
    ((deriveFeatures d hour).isWeekend = 1 ↔ 5 ≤ d.weekday) ∧
    ((deriveFeatures d hour).isNightTime = 1 ↔ 22 ≤ hour ∨ hour ≤ 5) := by
  unfold deriveFeatures
  refine ⟨rfl, rfl, rfl, rfl, ?_, ?_, ?_⟩ <;> split_ifs <;> simp_all

/-- C6 witness: the derivation at the spec's end-to-end example, June 15
with weekday 5 (a Saturday) at hour 8, which is a rush hour. -/
theorem temporal_features_witness :
    (8 : Nat) ≤ 23 ∧ (deriveFeatures ⟨6, 15, 5⟩ 8).isRushHour = 1 :=
  ⟨by decide, ((temporal_features_spec ⟨6, 15, 5⟩ 8 (by decide)).2.2.2.2.1).mpr (by decide)⟩

/-- C7: the annotator emits the rush-hour note exactly when the rush flag
is set, the night note exactly when the night flag is set, and the
high-risk note exactly when the contributing factor is one of the two
fixed strings; nothing else ever appears in the list; the list is empty
exactly when none of the three conditions holds; and the empty list is
rendered as the no-risk message. -/
theorem risk_factors_spec (r n : Nat) (cf : String) :
    (rushHourNote ∈ risk_factors r n cf ↔ r ≠ 0) ∧
    (nightTimeNote ∈ risk_factors r n cf ↔ n ≠ 0) ∧
    (highRiskNote cf ∈ risk_factors r n cf ↔
      (cf = "driver inattention/distraction" ∨ cf = "unsafe speed")) ∧
    (∀ x ∈ risk_factors r n cf,
      x = rushHourNote ∨ x = nightTimeNote ∨ x = highRiskNote cf) ∧
    (risk_factors r n cf = [] ↔
      (r = 0 ∧ n = 0 ∧ ¬(cf = "driver inattention/distraction" ∨ cf = "unsafe speed"))) ∧
    riskMessage [] = noRiskMessage := by
  refine ⟨rush_mem_iff r n cf, night_mem_iff r n cf, ?_, risk_factors_elements r n cf, ?_, rfl⟩
  · rw [highrisk_mem_iff]
    simp [highRiskFactors]
  · rw [risk_factors_empty_iff]
    simp [highRiskFactors]

/-- C7 witness: the annotator at concrete flags, extracting the rush-hour
note membership from the theorem. -/
theorem risk_factors_spec_witness :
    rushHourNote ∈ risk_factors 1 0 ("unsafe speed") :=
  (risk_factors_spec 1 0 ("unsafe speed")).1.mpr (by decide)

/-- C10: for every date, hour in 0..23 and contributing factor, the rush
and night flags derived from the hour are never both set, and consequently
the risk list of a single prediction never contains both the rush-hour
note and the night-time note. -/
theorem rush_night_exclusive (d : PyDate) (hour : Nat) (cf : String) (hh : hour ≤ 23) :
    ¬((deriveFeatures d hour).isRushHour = 1 ∧ (deriveFeatures d hour).isNightTime = 1) ∧
    ¬(rushHourNote ∈ risk_factors (deriveFeatures d hour).isRushHour
        (deriveFeatures d hour).isNightTime cf ∧
      nightTimeNote ∈ risk_factors (deriveFeatures d hour).isRushHour
        (deriveFeatures d hour).isNightTime cf) := by
  have h1 : ¬((deriveFeatures d hour).isRushHour = 1 ∧
      (deriveFeatures d hour).isNightTime = 1) := by
    unfold deriveFeatures
    split_ifs <;> simp_all <;> omega
  refine ⟨h1, ?_⟩
  rw [rush_mem_iff, night_mem_iff]
  rintro ⟨hr, hn⟩
  rcases rush_flag_cases d hour with hr0 | hr1
  · exact hr hr0
  · rcases night_flag_cases d hour with hn0 | hn1
    · exact hn hn0
    · exact h1 ⟨hr1, hn1⟩

/-- C10 witness: the exclusivity applied at hour 8 (a rush hour). -/
theorem rush_night_exclusive_witness :
    ¬((deriveFeatures ⟨6, 15, 5⟩ 8).isRushHour = 1 ∧
      (deriveFeatures ⟨6, 15, 5⟩ 8).isNightTime = 1) :=
  (rush_night_exclusive ⟨6, 15, 5⟩ 8 ("other") (by decide)).1

/-- C5: on every predict-button press the handler re-validates the current
ZIP string with `is_valid_ny_zipcode` before anything else; whenever that
check fails — whatever the predictor and whatever the rest of the form
state, including any feedback shown earlier in the interaction — the
handler reports the validation error, never invokes the predictor, and
leaves the form state untouched. -/
theorem predict_blocks_invalid_zip {ρ : Type} (fs : FormState)
    (predictor : InputData → Except String ρ)
    (h : is_valid_ny_zipcode fs.zip_code = false) :
    predict_button_handler fs predictor =
      { outcome := .validationError, predictorCalls := 0, finalState := fs } := by
  unfold predict_button_handler
  rw [h]
  simp

/-- C5 witness: the handler blocks the out-of-state ZIP "99999". -/
theorem predict_blocks_invalid_zip_witness :
    is_valid_ny_zipcode ("99999") = false ∧
    predict_button_handler (⟨⟨6, 15, 5⟩, 8, "sedan", "other", "99999"⟩ : FormState)
        (fun _ => (Except.ok () : Except String Unit)) =
      { outcome := .validationError, predictorCalls := 0,
        finalState := ⟨⟨6, 15, 5⟩, 8, "sedan", "other", "99999"⟩ } :=
  ⟨by decide, predict_blocks_invalid_zip _ _ (by decide)⟩

/-- C8: if the ZIP re-validation passes and the predictor call fails, the
handler catches the failure and reports the generic prediction error, the
predictor is invoked exactly once (no retry), and the form state is
returned unchanged, reusable for the next attempt. -/
theorem prediction_failure_caught {ρ : Type} (fs : FormState)
    (predictor : InputData → Except String ρ) (zip_int : Int) (msg : String)
    (hz : pyInt fs.zip_code = some zip_int)
    (hv : is_valid_ny_zipcode fs.zip_code = true)
    (he : predictor (build_input_data fs zip_int) = .error msg) :
    predict_button_handler fs predictor =
      { outcome := .predictionError, predictorCalls := 1, finalState := fs } := by
  unfold predict_button_handler
  simp [hv, hz, he]

/-- C8 witness: a predictor that always fails, on a valid form state. -/
theorem prediction_failure_caught_witness :
    pyInt ("10001") = some 10001 ∧
    is_valid_ny_zipcode ("10001") = true ∧
    predict_button_handler (⟨⟨6, 15, 5⟩, 8, "sedan", "unsafe speed", "10001"⟩ : FormState)
        (fun _ => (Except.error ("boom") : Except String Unit)) =
      { outcome := .predictionError, predictorCalls := 1,
        finalState := ⟨⟨6, 15, 5⟩, 8, "sedan", "unsafe speed", "10001"⟩ } :=
  ⟨by decide, by decide,
    prediction_failure_caught _ _ 10001 ("boom") (by decide) (by decide) rfl⟩
